import Mathlib

/-!
A shallow embedding of `db_replicator.py` (mysql_ch_replicator): the `State`
persistence record, the realtime event handlers and buffer coalescing of
`DbReplicator`, the flush (`upload_records`), and the snapshot paging
start-value computation.  Machine-level aspects that the claims do not touch
(wall-clock timers, pickle byte encoding, the external MySQL/ClickHouse
clients) are abstracted: target calls are recorded as a list of operations,
and the time-gated `upload_records_if_required` trigger is modelled as a
nondeterministic flush step in the trace relation.
-/

namespace Repl

/-- Python exceptions that the modelled code can raise. -/
inductive PyErr where
  | keyError
  | typeError
  | valueError
deriving DecidableEq, Repr

/-- A Python scalar as it occurs in replicated rows: an `int` or a `str`.
Row cells and buffered primary keys are such values; Python `dict`/`set`
membership compares them with `==`, under which ints and strs never mix. -/
inductive Value where
  | vInt (n : Int)
  | vStr (s : String)
deriving DecidableEq, Repr

/-- Python `str(v)` / f-string interpolation of a row value. -/
def pyStr : Value → String
  | .vInt n => toString n
  | .vStr s => s

/-- The single-quote character, as used by the f-string quoting
`f"'{record[primary_key_name_idx]}'"` in the source. -/
def squote : String := String.singleton (Char.ofNat 39)

/-- A row tuple. -/
abbrev Row := List Value

/-- One field of a `TableStructure` (name and type), as used by
`db_replicator.py`: `field.name`, `field.field_type`. -/
structure TableField where
  name : String
  field_type : String
deriving DecidableEq, Repr

/-- The parts of `table_structure.TableStructure` that `db_replicator.py`
reads: the ordered field list, the primary key column name and its
positional index. -/
structure TableStructure where
  table_name : String
  fields : List TableField
  primary_key : String
  primary_key_idx : Nat
deriving DecidableEq, Repr

def defaultField : TableField := ⟨"", ""⟩

def defaultTS : TableStructure := ⟨"", [], "", 0⟩

/-- A binlog transaction id: the pair (log file name, byte offset),
compared lexicographically as Python compares tuples. -/
abbrev TxId := String × Nat

/-- Python `(f1, o1) <= (f2, o2)` on transaction ids. -/
def txLeB (a b : TxId) : Bool :=
  if a.1 = b.1 then decide (a.2 ≤ b.2) else decide (a.1 < b.1)

/-- Order on optional cursors, with an unset cursor (`None`) below
every set one. -/
def optTxLeB : Option TxId → Option TxId → Bool
  | none, _ => true
  | some _, none => false
  | some a, some b => txLeB a b

/-- Python `d[k]` with a default (`defaultdict` read / `dict.get`). -/
def alistGet {α : Type} (l : List (String × α)) (k : String) (dflt : α) : α :=
  match l with
  | [] => dflt
  | p :: t => if p.1 = k then p.2 else alistGet t k dflt

/-- Python `d[k] = v`: overwrite in place, else append (insertion order). -/
def alistSet {α : Type} (l : List (String × α)) (k : String) (v : α) : List (String × α) :=
  match l with
  | [] => [(k, v)]
  | p :: t => if p.1 = k then (k, v) :: t else p :: alistSet t k v

/-- The per-table insert buffer: a Python dict primary-key → row. -/
abbrev InsDict := List (Value × Row)

/-- Python `d[k] = v` on an insert buffer. -/
def dictSet (d : InsDict) (k : Value) (v : Row) : InsDict :=
  match d with
  | [] => [(k, v)]
  | p :: t => if p.1 = k then (k, v) :: t else p :: dictSet t k v

/-- Python `d.pop(k, None)` on an insert buffer. -/
def dictPop (d : InsDict) (k : Value) : InsDict :=
  match d with
  | [] => []
  | p :: t => if p.1 = k then dictPop t k else p :: dictPop t k

/-- Python `s.add(k)` on a set of primary keys. -/
def setAdd (s : List Value) (k : Value) : List Value :=
  if k ∈ s then s else s ++ [k]

/-- Python `s.discard(k)` on a set of primary keys. -/
def setDiscard (s : List Value) (k : Value) : List Value :=
  match s with
  | [] => []
  | x :: t => if x = k then setDiscard t k else x :: setDiscard t k

/-- The `Status` enum of `db_replicator.py`. -/
inductive Status where
  | NONE
  | CREATING_INITIAL_STRUCTURES
  | PERFORMING_INITIAL_REPLICATION
  | RUNNING_REALTIME_REPLICATION
deriving DecidableEq, Repr

/-- `Status.value` (`NONE = 0`, ..., `RUNNING_REALTIME_REPLICATION = 3`). -/
def Status.value : Status → Nat
  | .NONE => 0
  | .CREATING_INITIAL_STRUCTURES => 1
  | .PERFORMING_INITIAL_REPLICATION => 2
  | .RUNNING_REALTIME_REPLICATION => 3

/-- Python `Status(n)`: `none` models the `ValueError` raised on an
unknown enum value. -/
def Status.ofValue : Nat → Option Status
  | 0 => some .NONE
  | 1 => some .CREATING_INITIAL_STRUCTURES
  | 2 => some .PERFORMING_INITIAL_REPLICATION
  | 3 => some .RUNNING_REALTIME_REPLICATION
  | _ => none

/-- The in-memory fields of the `State` class (the `file_name` handle is
not part of the data). -/
structure StateRec where
  last_processed_transaction : Option TxId
  last_processed_transaction_non_uploaded : Option TxId
  status : Status
  tables_last_record_version : List (String × Nat)
  initial_replication_table : Option String
  initial_replication_max_primary_key : Option Value
  tables_structure : List (String × (TableStructure × TableStructure))
  tables : List String
deriving DecidableEq, Repr

/-- The record that `State.save` pickles: exactly the seven dictionary keys
written by the source, in particular with no
`last_processed_transaction_non_uploaded` entry.  The pickle byte encoding
is abstracted (pickle round-trips its input). -/
structure SavedData where
  last_processed_transaction : Option TxId
  status : Nat
  tables_last_record_version : List (String × Nat)
  initial_replication_table : Option String
  initial_replication_max_primary_key : Option Value
  tables_structure : List (String × (TableStructure × TableStructure))
  tables : List String
deriving DecidableEq, Repr

/-- `State.save`. -/
def State.save (s : StateRec) : SavedData :=
  { last_processed_transaction := s.last_processed_transaction
    status := s.status.value
    tables_last_record_version := s.tables_last_record_version
    initial_replication_table := s.initial_replication_table
    initial_replication_max_primary_key := s.initial_replication_max_primary_key
    tables_structure := s.tables_structure
    tables := s.tables }

/-- `State.load`: `none` is a missing file (early return, fresh-start
defaults kept); otherwise every persisted field is restored and both
cursors are read from the single saved `last_processed_transaction` key.
`Status(data['status'])` raises `ValueError` on an invalid value. -/
def State.load (s : StateRec) (file : Option SavedData) : Except PyErr StateRec :=
  match file with
  | none => .ok s
  | some d =>
    match Status.ofValue d.status with
    | none => .error .valueError
    | some st =>
      .ok { s with
            last_processed_transaction := d.last_processed_transaction
            last_processed_transaction_non_uploaded := d.last_processed_transaction
            status := st
            tables_last_record_version := d.tables_last_record_version
            initial_replication_table := d.initial_replication_table
            initial_replication_max_primary_key := d.initial_replication_max_primary_key
            tables_structure := d.tables_structure
            tables := d.tables }

/-- `chPre pat l` is Python `l.startswith(pat)` on character lists. -/
def chPre : List Char → List Char → Bool
  | [], _ => true
  | _ :: _, [] => false
  | a :: as, b :: bs => a == b && chPre as bs

/-- `chInfix pat l`: Python `pat in l` on character lists. -/
def chInfix : List Char → List Char → Bool
  | pat, [] => chPre pat []
  | pat, b :: bs => chPre pat (b :: bs) || chInfix pat bs

/-- Python `pat in s` on strings. -/
def strContains (s pat : String) : Bool := chInfix pat.toList s.toList

/-- Python `s.startswith(pre)`. -/
def pyStartsWith (s pre : String) : Bool := chPre pre.toList s.toList

def isSpaceChar (ch : Char) : Bool :=
  ch = ' ' || ch = '\t' || ch = '\n' || ch = '\r'

/-- Python `s.strip()` (restricted to the ASCII whitespace that occurs in
SQL text). -/
def pyStrip (s : String) : String :=
  String.mk (((s.toList.dropWhile isSpaceChar).reverse.dropWhile isSpaceChar).reverse)

def lowerChar (ch : Char) : Char :=
  if 'A' ≤ ch ∧ ch ≤ 'Z' then Char.ofNat (ch.toNat + 32) else ch

/-- Python `s.lower()` (ASCII). -/
def pyLower (s : String) : String := String.mk (s.toList.map lowerChar)

/-- Python `str(x)` where `x` is an optional value (`str(None) = "None"`). -/
def pyFormatOpt : Option Value → String
  | none => "None"
  | some v => pyStr v

/-- The `query_start_value` computation of
`DbReplicator.perform_initial_replication_table` (lines 186-188):
`query_start_value = max_primary_key`, then
`if 'Int' not in primary_key_type: query_start_value = f"'{query_start_value}'"`.
The result is what is passed as `start_value` to `get_records`
(`none` = Python `None`). -/
def query_start_value (max_primary_key : Option Value) (primary_key_type : String) :
    Option Value :=
  if strContains primary_key_type "Int" then max_primary_key
  else some (.vStr (squote ++ pyFormatOpt max_primary_key ++ squote))

/-- Modelled from the spec: the `EventType` enum values live in
`binlog_replicator.py`, which is not part of the sources; the spec fixes
the closed set {ADD, REMOVE, QUERY}, so they are modelled as three distinct
numeric codes.  An event's `event_type` field may hold any code. -/
def ADD_EVENT : Nat := 1

/-- Modelled from the spec: see `ADD_EVENT`. -/
def REMOVE_EVENT : Nat := 2

/-- Modelled from the spec: see `ADD_EVENT`. -/
def QUERY_EVENT : Nat := 3

/-- The payload of a `LogEvent`: a list of row tuples for ADD/REMOVE,
the SQL text for QUERY. -/
inductive EventRecords where
  | rows (rs : List Row)
  | sql (q : String)
deriving DecidableEq, Repr

def getRows : EventRecords → List Row
  | .rows rs => rs
  | .sql _ => []

def getSql : EventRecords → String
  | .rows _ => ""
  | .sql q => q

/-- A binlog event as consumed by `DbReplicator.handle_event`. -/
structure LogEvent where
  transaction_id : TxId
  event_type : Nat
  table_name : String
  db_name : String
  records : EventRecords
deriving DecidableEq, Repr

/-- A call made to the ClickHouse client, in the order the replicator
issues them. -/
inductive TargetOp where
  | insert (table : String) (rows : List Row)
  | erase (table : String) (field_name : String) (field_values : List Value)
  | execute_command (sql : String)
  | create_table (structure_ch : TableStructure)
deriving DecidableEq, Repr

/-- The external `MysqlToClickhouseConverter`, specified only by contract
(spec section 4.5); the claims hold for every converter.  `apply_alter` is
modelled from the spec: on a successful ALTER the converter-side logic
replaces the registry entry of the altered table (spec sections 4.2 and
4.4); its code is not under the sources. -/
structure Converter where
  convert_records : List Row → TableStructure → TableStructure → List Row
  convert_alter_query : String → String → Option String
  parse_create_table_query : String → TableStructure × TableStructure
  apply_alter : String → String →
    List (String × (TableStructure × TableStructure)) →
    List (String × (TableStructure × TableStructure))

/-- The in-memory state of a `DbReplicator` that the realtime path touches:
the cursors and cached schemas of its `State`, the two buffers, and the
`Statistics` counters (flattened into one record; wall-clock timestamps are
not modelled). -/
structure ReplState where
  last_processed_transaction : Option TxId
  last_processed_transaction_non_uploaded : Option TxId
  tables_structure : List (String × (TableStructure × TableStructure))
  records_to_insert : List (String × InsDict)
  records_to_delete : List (String × List Value)
  stats_last_transaction : Option TxId
  stats_events_count : Nat
  stats_insert_events_count : Nat
  stats_insert_records_count : Nat
  stats_erase_events_count : Nat
  stats_erase_records_count : Nat
deriving DecidableEq, Repr

/-- `self.state.tables_structure[table_name]`.  A missing table raises
`KeyError` in Python (a fatal programming error per the spec); only the
present-key behaviour is modelled, via a default. -/
def tableStructs (s : ReplState) (t : String) : TableStructure × TableStructure :=
  alistGet s.tables_structure t (defaultTS, defaultTS)

/-- `record[idx]`; Python raises `IndexError` out of range, only the
in-range behaviour is modelled. -/
def recordAt (r : Row) (idx : Nat) : Value := r.getD idx (.vStr "")

/-- The `for record in records` loop of `handle_insert_event` (lines
273-276): key each row by its primary key, overwrite the insert buffer
entry and discard the key from the delete buffer. -/
def insertLoop (pkIdx : Nat) : List Row → InsDict → List Value → InsDict × List Value
  | [], d, ds => (d, ds)
  | r :: rest, d, ds =>
    insertLoop pkIdx rest (dictSet d (recordAt r pkIdx) r) (setDiscard ds (recordAt r pkIdx))

/-- `DbReplicator.handle_insert_event` (lines 261-277). -/
def handle_insert_event (c : Converter) (s : ReplState) (e : LogEvent) : ReplState :=
  let mysql_table_structure := (tableStructs s e.table_name).1
  let clickhouse_table_structure := (tableStructs s e.table_name).2
  let records := c.convert_records (getRows e.records) mysql_table_structure
    clickhouse_table_structure
  let primary_key_ids := mysql_table_structure.primary_key_idx
  let res := insertLoop primary_key_ids records
    (alistGet s.records_to_insert e.table_name [])
    (alistGet s.records_to_delete e.table_name [])
  { s with
    stats_insert_events_count := s.stats_insert_events_count + 1
    stats_insert_records_count := s.stats_insert_records_count + (getRows e.records).length
    records_to_insert := alistSet s.records_to_insert e.table_name res.1
    records_to_delete := alistSet s.records_to_delete e.table_name res.2 }

/-- The `keys_to_remove` comprehension of `handle_erase_event` (lines
285-291): the primary key of each erased row, wrapped in single quotes
when the ClickHouse-side type of the primary-key field is `String`. -/
def erase_keys (s : ReplState) (e : LogEvent) : List Value :=
  let table_structure := (tableStructs s e.table_name).1
  let table_structure_ch := (tableStructs s e.table_name).2
  let primary_key_name_idx := table_structure.primary_key_idx
  let field_type_ch := (table_structure_ch.fields.getD primary_key_name_idx defaultField).field_type
  if field_type_ch = "String" then
    (getRows e.records).map
      (fun r => .vStr (squote ++ pyStr (recordAt r primary_key_name_idx) ++ squote))
  else
    (getRows e.records).map (fun r => recordAt r primary_key_name_idx)

/-- The `for record_id in keys_to_remove` loop of `handle_erase_event`
(lines 295-297): add the key to the delete buffer and pop it from the
insert buffer. -/
def eraseLoop : List Value → InsDict → List Value → InsDict × List Value
  | [], d, ds => (d, ds)
  | k :: rest, d, ds => eraseLoop rest (dictPop d k) (setAdd ds k)

/-- `DbReplicator.handle_erase_event` (lines 278-297); note it does not
run the converter on the rows. -/
def handle_erase_event (s : ReplState) (e : LogEvent) : ReplState :=
  let res := eraseLoop (erase_keys s e)
    (alistGet s.records_to_insert e.table_name [])
    (alistGet s.records_to_delete e.table_name [])
  { s with
    stats_erase_events_count := s.stats_erase_events_count + 1
    stats_erase_records_count := s.stats_erase_records_count + (getRows e.records).length
    records_to_insert := alistSet s.records_to_insert e.table_name res.1
    records_to_delete := alistSet s.records_to_delete e.table_name res.2 }

/-- `DbReplicator.upload_records` (lines 351-374): per-table bulk inserts
of the buffered rows, then per-table deletes by primary-key set, then both
buffers are reset and the durable cursor is set to the non-uploaded one.
The returned list is the sequence of target calls.  The wall-clock
`last_records_upload_time` stamp and the time-gated `save_state_if_required`
call are not modelled. -/
def upload_records (s : ReplState) : ReplState × List TargetOp :=
  let insertOps := s.records_to_insert.filterMap
    (fun p => if p.2 = [] then none else some (TargetOp.insert p.1 (p.2.map Prod.snd)))
  let deleteOps := s.records_to_delete.filterMap
    (fun p => if p.2 = [] then none
      else some (TargetOp.erase p.1 (tableStructs s p.1).1.primary_key p.2))
  ({ s with
      records_to_insert := []
      records_to_delete := []
      last_processed_transaction := s.last_processed_transaction_non_uploaded },
    insertOps ++ deleteOps)

/-- `DbReplicator.handle_alter_query` (lines 310-316): flush, convert, and
either skip (converter returned `None`) or execute the converted DDL; on
success the registry is brought in line via the converter-side
`apply_alter` (modelled from the spec, see `Converter`). -/
def handle_alter_query (c : Converter) (s : ReplState) (query db_name : String) :
    ReplState × List TargetOp :=
  let fl := upload_records s
  match c.convert_alter_query query db_name with
  | none => (fl.1, fl.2)
  | some ch_alter_query =>
    ({ fl.1 with tables_structure := c.apply_alter query db_name fl.1.tables_structure },
      fl.2 ++ [TargetOp.execute_command ch_alter_query])

/-- `DbReplicator.handle_create_table_query` (lines 318-321). -/
def handle_create_table_query (c : Converter) (s : ReplState) (query : String) :
    ReplState × List TargetOp :=
  let pr := c.parse_create_table_query query
  ({ s with tables_structure := alistSet s.tables_structure pr.1.table_name (pr.1, pr.2) },
    [TargetOp.create_table pr.2])

/-- `handle_drop_table_query` is declared with one parameter besides
`self` (line 323); its body is `pass`. -/
def handle_drop_table_query_param_count : Nat := 1

/-- Python call arity check: calling a bound method with a number of
arguments different from its parameter count raises `TypeError` before the
body runs. -/
def pyCallCheck (param_count arg_count : Nat) : Option PyErr :=
  if arg_count = param_count then none else some .typeError

/-- The outcome of handling one event: the state at return (or at the
point an exception escapes), the target calls issued before that point,
and the escaping exception, if any. -/
structure StepResult where
  state : ReplState
  ops : List TargetOp
  err : Option PyErr
deriving DecidableEq, Repr

/-- `DbReplicator.handle_query_event` (lines 299-307): strip the SQL text
and run each (non-exclusive) keyword test in turn; the DROP TABLE branch
calls `handle_drop_table_query(query, event.db_name)` — two arguments
against a one-parameter signature. -/
def handle_query_event (c : Converter) (s : ReplState) (e : LogEvent) : StepResult :=
  let query := pyStrip (getSql e.records)
  let low := pyLower query
  let r1 := if pyStartsWith low "alter" then handle_alter_query c s query e.db_name
    else (s, [])
  let r2 := if pyStartsWith low "create table" then handle_create_table_query c r1.1 query
    else (r1.1, [])
  let err := if pyStartsWith low "drop table" then
    pyCallCheck handle_drop_table_query_param_count 2 else none
  ⟨r2.1, r1.2 ++ r2.2, err⟩

/-- The duplicate-suppression guard of `handle_event` (lines 231-233). -/
def suppressedB (s : ReplState) (e : LogEvent) : Bool :=
  match s.last_processed_transaction_non_uploaded with
  | some t => txLeB e.transaction_id t
  | none => false

/-- The `event_handlers` dict dispatch of `handle_event` (lines 240-246):
exactly three keys; any other `event_type` raises `KeyError` at the
lookup. -/
def handle_event_dispatch (c : Converter) (s1 : ReplState) (e : LogEvent) : StepResult :=
  if e.event_type = ADD_EVENT then ⟨handle_insert_event c s1 e, [], none⟩
  else if e.event_type = REMOVE_EVENT then ⟨handle_erase_event s1 e, [], none⟩
  else if e.event_type = QUERY_EVENT then handle_query_event c s1 e
  else ⟨s1, [], some .keyError⟩

/-- `DbReplicator.handle_event` (lines 230-251): suppress duplicates, else
update statistics, advance the non-uploaded cursor, and dispatch on the
event type through the `event_handlers` dict — whose lookup raises
`KeyError` for any type other than ADD, REMOVE and QUERY.  The trailing
time/threshold-gated `upload_records_if_required` and the time-gated
`save_state_if_required` / `log_stats_if_required` calls are modelled as
separate trace steps (see `RStep`). -/
def handle_event (c : Converter) (s : ReplState) (e : LogEvent) : StepResult :=
  if suppressedB s e then ⟨s, [], none⟩
  else
    handle_event_dispatch c
      { s with
        stats_events_count := s.stats_events_count + 1
        stats_last_transaction := some e.transaction_id
        last_processed_transaction_non_uploaded := some e.transaction_id } e

/-- One step of the realtime loop: handling one event, or a flush
(`upload_records` as invoked by `upload_records_if_required`, whose
time/size trigger is abstracted into nondeterministic step choice). -/
inductive RStep where
  | ev (e : LogEvent)
  | flush

/-- The state after one realtime step (target calls and exceptions
dropped). -/
def stepState (c : Converter) (s : ReplState) : RStep → ReplState
  | .ev e => (handle_event c s e).state
  | .flush => (upload_records s).1

/-- The state after a list of realtime steps. -/
def runSteps (c : Converter) (s : ReplState) (steps : List RStep) : ReplState :=
  steps.foldl (stepState c) s

/-- The state of a freshly constructed `DbReplicator` in realtime mode:
empty buffers, zeroed statistics, cursors and cached schemas as read from
the `State`. -/
def initRepl (lpt lptnu : Option TxId)
    (reg : List (String × (TableStructure × TableStructure))) : ReplState :=
  { last_processed_transaction := lpt
    last_processed_transaction_non_uploaded := lptnu
    tables_structure := reg
    records_to_insert := []
    records_to_delete := []
    stats_last_transaction := none
    stats_events_count := 0
    stats_insert_events_count := 0
    stats_insert_records_count := 0
    stats_erase_events_count := 0
    stats_erase_records_count := 0 }

/-- Buffer disjointness: no value is at once a key of a table's insert
buffer and a member of the same table's delete buffer. -/
def bufDisjoint (s : ReplState) : Prop :=
  ∀ t k, k ∈ (alistGet s.records_to_insert t []).map Prod.fst →
    k ∉ alistGet s.records_to_delete t []

/-- The cursor invariant: the durable cursor is at or below the
non-uploaded one, an unset cursor counting as bottom. -/
def cursorInv (s : ReplState) : Bool :=
  optTxLeB s.last_processed_transaction s.last_processed_transaction_non_uploaded

/-- A concrete converter for witnesses and counterexamples: rows convert to
themselves and no ALTER is convertible. -/
def sampleConverter : Converter :=
  { convert_records := fun rs _ _ => rs
    convert_alter_query := fun _ _ => none
    parse_create_table_query := fun _ => (defaultTS, defaultTS)
    apply_alter := fun _ _ reg => reg }

/-- MySQL-side structure of a sample table `u` whose primary key `id` maps
to a ClickHouse `String` column. -/
def uMysql : TableStructure :=
  { table_name := "u", fields := [⟨"id", "varchar"⟩, ⟨"name", "varchar"⟩]
    primary_key := "id", primary_key_idx := 0 }

/-- ClickHouse-side structure of the sample table `u` (String primary
key). -/
def uCh : TableStructure :=
  { table_name := "u", fields := [⟨"id", "String"⟩, ⟨"name", "String"⟩]
    primary_key := "id", primary_key_idx := 0 }

/-- A registry containing only the sample table `u`. -/
def uReg : List (String × (TableStructure × TableStructure)) := [("u", (uMysql, uCh))]

/-- The primary keys under which `handle_insert_event` buffers the rows of
an ADD event: the converted rows keyed at the MySQL-side primary-key
index. -/
def insert_record_ids (c : Converter) (s : ReplState) (e : LogEvent) : List Value :=
  (c.convert_records (getRows e.records) (tableStructs s e.table_name).1
    (tableStructs s e.table_name).2).map
    (fun r => recordAt r (tableStructs s e.table_name).1.primary_key_idx)

def isInsertOp : TargetOp → Bool
  | .insert _ _ => true
  | _ => false

def isEraseOp : TargetOp → Bool
  | .erase _ _ _ => true
  | _ => false

/-- A state of the sample table `u` holding one buffered insert whose
String primary key is the raw (unquoted) value `x`. -/
def c1exState : ReplState :=
  { initRepl none none uReg with
    records_to_insert := [("u", [(.vStr "x", [.vStr "x", .vStr "a"])])] }

/-- A REMOVE event erasing the row with primary key `x` from `u`. -/
def c1exEvent : LogEvent := ⟨("log1", 50), REMOVE_EVENT, "u", "db", .rows [[.vStr "x"]]⟩

/-- REMOVE of primary key `x` from `u` (transaction ("log1", 100)). -/
def c2RemoveEvent : LogEvent := ⟨("log1", 100), REMOVE_EVENT, "u", "db", .rows [[.vStr "x"]]⟩

/-- ADD of the row `(x, d)` to `u` (transaction ("log1", 110)). -/
def c2AddEvent : LogEvent :=
  ⟨("log1", 110), ADD_EVENT, "u", "db", .rows [[.vStr "x", .vStr "d"]]⟩

/-- A state with one buffered insert and cursors ("log1",1) / ("log1",9). -/
def c3exState : ReplState :=
  { initRepl (some ("log1", 1)) (some ("log1", 9)) uReg with
    records_to_insert := [("u", [(.vInt 3, [.vInt 3, .vStr "c"])])] }

/-- A state whose non-uploaded cursor is ("log1", 100). -/
def c4exState : ReplState := initRepl (some ("log1", 80)) (some ("log1", 100)) uReg

/-- An ADD event whose transaction ("log1", 90) is at or below the
non-uploaded cursor of `c4exState`. -/
def c4exEvent : LogEvent := ⟨("log1", 90), ADD_EVENT, "u", "db", .rows [[.vStr "y", .vStr "z"]]⟩

/-- The fresh-bootstrap realtime state: the durable cursor was set to the
binlog head by `run` (line 128) while the non-uploaded cursor is still
unset. -/
def c5exState : ReplState := initRepl (some ("binlog1", 42)) none []

/-- An ADD event used to witness the amended cursor invariant. -/
def c5wEvent : LogEvent := ⟨("log1", 7), ADD_EVENT, "u", "db", .rows [[.vStr "w", .vStr "v"]]⟩

/-- A QUERY event carrying an ALTER statement. -/
def c7exEvent : LogEvent :=
  ⟨("log1", 130), QUERY_EVENT, "u", "db", .sql "ALTER TABLE u ADD COLUMN age INT"⟩

/-- A QUERY event carrying a DROP TABLE statement. -/
def c9Event : LogEvent := ⟨("log1", 7), QUERY_EVENT, "", "db", .sql "DROP TABLE test"⟩

/-- An event whose `event_type` code (99) is none of ADD, REMOVE, QUERY. -/
def c10Event : LogEvent := ⟨("log1", 10), 99, "u", "db", .rows []⟩

/-! ### Association-list, dict and set lemmas -/

theorem alistGet_set_self {α : Type} (l : List (String × α)) (k : String) (v : α) (dflt : α) :
    alistGet (alistSet l k v) k dflt = v := by
  induction l with
  | nil => simp [alistGet, alistSet]
  | cons p t ih =>
    by_cases hp : p.1 = k
    · simp [alistSet, hp, alistGet]
    · simp [alistSet, hp, alistGet, ih]

theorem alistGet_set_ne {α : Type} (l : List (String × α)) (k k' : String) (v : α) (dflt : α)
    (h : k' ≠ k) : alistGet (alistSet l k v) k' dflt = alistGet l k' dflt := by
  induction l with
  | nil => simp [alistGet, alistSet, Ne.symm h]
  | cons p t ih =>
    by_cases hp : p.1 = k
    · simp [alistSet, hp, alistGet, Ne.symm h]
    · simp [alistSet, hp, alistGet, ih]

theorem mem_dictSet (d : InsDict) (k : Value) (v : Row) (pr : Value × Row)
    (h : pr ∈ dictSet d k v) : pr = (k, v) ∨ pr ∈ d := by
  induction d with
  | nil => simpa [dictSet] using h
  | cons p t ih =>
    by_cases hp : p.1 = k
    · simp only [dictSet, if_pos hp] at h
      rcases List.mem_cons.1 h with h | h
      · exact .inl h
      · exact .inr (List.mem_cons_of_mem _ h)
    · simp only [dictSet, if_neg hp] at h
      rcases List.mem_cons.1 h with h | h
      · exact .inr (h ▸ List.mem_cons_self _ _)
      · rcases ih h with h' | h'
        · exact .inl h'
        · exact .inr (List.mem_cons_of_mem _ h')

theorem mem_dictPop (d : InsDict) (k : Value) (pr : Value × Row)
    (h : pr ∈ dictPop d k) : pr ∈ d ∧ pr.1 ≠ k := by
  induction d with
  | nil => simp [dictPop] at h
  | cons p t ih =>
    by_cases hp : p.1 = k
    · simp only [dictPop, if_pos hp] at h
      exact ⟨List.mem_cons_of_mem _ (ih h).1, (ih h).2⟩
    · simp only [dictPop, if_neg hp] at h
      rcases List.mem_cons.1 h with h | h
      · exact ⟨h ▸ List.mem_cons_self _ _, h ▸ hp⟩
      · exact ⟨List.mem_cons_of_mem _ (ih h).1, (ih h).2⟩

theorem mem_keys_dictSet (d : InsDict) (k k' : Value) (v : Row)
    (h : k' ∈ (dictSet d k v).map Prod.fst) : k' = k ∨ k' ∈ d.map Prod.fst := by
  rcases List.mem_map.1 h with ⟨pr, hpr, hb⟩
  rcases mem_dictSet _ _ _ _ hpr with h' | h'
  · exact .inl (hb ▸ h' ▸ rfl)
  · exact .inr (List.mem_map.2 ⟨pr, h', hb⟩)

theorem mem_keys_dictPop (d : InsDict) (k k' : Value)
    (h : k' ∈ (dictPop d k).map Prod.fst) : k' ∈ d.map Prod.fst ∧ k' ≠ k := by
  rcases List.mem_map.1 h with ⟨pr, hpr, hb⟩
  exact ⟨List.mem_map.2 ⟨pr, (mem_dictPop _ _ _ hpr).1, hb⟩, hb ▸ (mem_dictPop _ _ _ hpr).2⟩

theorem mem_setAdd (s : List Value) (k k' : Value) (h : k' ∈ setAdd s k) :
    k' = k ∨ k' ∈ s := by
  unfold setAdd at h
  by_cases hk : k ∈ s
  · rw [if_pos hk] at h; exact .inr h
  · rw [if_neg hk] at h
    rcases List.mem_append.1 h with h | h
    · exact .inr h
    · exact .inl (by simpa using h)

theorem mem_setDiscard (s : List Value) (k k' : Value) (h : k' ∈ setDiscard s k) :
    k' ∈ s ∧ k' ≠ k := by
  induction s with
  | nil => simp [setDiscard] at h
  | cons x t ih =>
    by_cases hx : x = k
    · simp only [setDiscard, if_pos hx] at h
      exact ⟨List.mem_cons_of_mem _ (ih h).1, (ih h).2⟩
    · simp only [setDiscard, if_neg hx] at h
      rcases List.mem_cons.1 h with h | h
      · exact ⟨h ▸ List.mem_cons_self _ _, h ▸ hx⟩
      · exact ⟨List.mem_cons_of_mem _ (ih h).1, (ih h).2⟩

/-! ### Loop lemmas -/

/-- Per-table disjointness of an insert buffer and a delete buffer. -/
def TDisj (d : InsDict) (ds : List Value) : Prop :=
  ∀ k, k ∈ d.map Prod.fst → k ∉ ds

theorem insertLoop_disj (pkIdx : Nat) (rs : List Row) (d : InsDict) (ds : List Value)
    (h : TDisj d ds) : TDisj (insertLoop pkIdx rs d ds).1 (insertLoop pkIdx rs d ds).2 := by
  induction rs generalizing d ds with
  | nil => exact h
  | cons r rest ih =>
    apply ih
    intro k hk hkds
    rcases mem_keys_dictSet _ _ _ _ hk with hk' | hk'
    · exact absurd (mem_setDiscard _ _ _ hkds).2 (by simp [hk'])
    · exact h k hk' (mem_setDiscard _ _ _ hkds).1

theorem insertLoop_del_subset (pkIdx : Nat) (rs : List Row) (d : InsDict) (ds : List Value)
    (k : Value) (h : k ∈ (insertLoop pkIdx rs d ds).2) : k ∈ ds := by
  induction rs generalizing d ds with
  | nil => exact h
  | cons r rest ih => exact (mem_setDiscard _ _ _ (ih _ _ h)).1

theorem insertLoop_key_not_mem_del (pkIdx : Nat) (rs : List Row) (d : InsDict)
    (ds : List Value) (r : Row) (hr : r ∈ rs) :
    recordAt r pkIdx ∉ (insertLoop pkIdx rs d ds).2 := by
  induction rs generalizing d ds with
  | nil => simp at hr
  | cons r0 rest ih =>
    rcases List.mem_cons.1 hr with h0 | h0
    · subst h0
      intro hmem
      exact (mem_setDiscard _ _ _ (insertLoop_del_subset _ _ _ _ _ hmem)).2 rfl
    · exact ih _ _ h0

theorem eraseLoop_disj (ks : List Value) (d : InsDict) (ds : List Value)
    (h : TDisj d ds) : TDisj (eraseLoop ks d ds).1 (eraseLoop ks d ds).2 := by
  induction ks generalizing d ds with
  | nil => exact h
  | cons k rest ih =>
    apply ih
    intro k' hk' hkds
    rcases mem_keys_dictPop _ _ _ hk' with ⟨h1, h2⟩
    rcases mem_setAdd _ _ _ hkds with h3 | h3
    · exact h2 h3
    · exact h k' h1 h3

theorem eraseLoop_ins_subset (ks : List Value) (d : InsDict) (ds : List Value)
    (k : Value) (h : k ∈ (eraseLoop ks d ds).1.map Prod.fst) : k ∈ d.map Prod.fst := by
  induction ks generalizing d ds with
  | nil => exact h
  | cons k0 rest ih => exact (mem_keys_dictPop _ _ _ (ih _ _ h)).1

theorem eraseLoop_key_not_mem_ins (ks : List Value) (d : InsDict) (ds : List Value)
    (k : Value) (hk : k ∈ ks) : k ∉ (eraseLoop ks d ds).1.map Prod.fst := by
  induction ks generalizing d ds with
  | nil => simp at hk
  | cons k0 rest ih =>
    rcases List.mem_cons.1 hk with h0 | h0
    · subst h0
      intro hmem
      exact (mem_keys_dictPop _ _ _ (eraseLoop_ins_subset _ _ _ _ hmem)).2 rfl
    · exact ih _ _ h0

/-! ### Buffer disjointness is preserved by every realtime step -/

theorem bufDisjoint_same_buffers (s s' : ReplState)
    (hi : s'.records_to_insert = s.records_to_insert)
    (hd : s'.records_to_delete = s.records_to_delete)
    (h : bufDisjoint s) : bufDisjoint s' := by
  intro t k hk
  rw [hi, hd] at *
  exact h t k hk

theorem bufDisjoint_insert_event (c : Converter) (s : ReplState) (e : LogEvent)
    (h : bufDisjoint s) : bufDisjoint (handle_insert_event c s e) := by
  intro t k hk hkd
  unfold handle_insert_event at hk hkd
  by_cases ht : t = e.table_name
  · subst ht
    simp only [alistGet_set_self] at hk hkd
    exact insertLoop_disj _ _ _ _ (fun k' hk' => h e.table_name k' hk') k hk hkd
  · rw [alistGet_set_ne _ _ _ _ _ ht] at hk hkd
    exact h t k hk hkd

theorem bufDisjoint_erase_event (s : ReplState) (e : LogEvent)
    (h : bufDisjoint s) : bufDisjoint (handle_erase_event s e) := by
  intro t k hk hkd
  unfold handle_erase_event at hk hkd
  by_cases ht : t = e.table_name
  · subst ht
    simp only [alistGet_set_self] at hk hkd
    exact eraseLoop_disj _ _ _ (fun k' hk' => h e.table_name k' hk') k hk hkd
  · rw [alistGet_set_ne _ _ _ _ _ ht] at hk hkd
    exact h t k hk hkd

theorem bufDisjoint_upload (s : ReplState) : bufDisjoint (upload_records s).1 := by
  intro t k hk
  simp [upload_records, alistGet] at hk

theorem bufDisjoint_alter (c : Converter) (s : ReplState) (q db : String) :
    bufDisjoint (handle_alter_query c s q db).1 := by
  unfold handle_alter_query
  cases hc : c.convert_alter_query q db with
  | none =>
    simpa using bufDisjoint_upload s
  | some chq =>
    intro t k hk
    simp [upload_records, alistGet] at hk

theorem bufDisjoint_create (c : Converter) (s : ReplState) (q : String)
    (h : bufDisjoint s) : bufDisjoint (handle_create_table_query c s q).1 :=
  bufDisjoint_same_buffers s _ rfl rfl h

theorem bufDisjoint_query_event (c : Converter) (s : ReplState) (e : LogEvent)
    (h : bufDisjoint s) : bufDisjoint (handle_query_event c s e).state := by
  by_cases ha : pyStartsWith (pyLower (pyStrip (getSql e.records))) "alter" = true
  · by_cases hcr : pyStartsWith (pyLower (pyStrip (getSql e.records))) "create table" = true
    · simp only [handle_query_event, ha, hcr, if_true]
      exact bufDisjoint_create _ _ _ (bufDisjoint_alter c s _ e.db_name)
    · simp only [handle_query_event, ha, hcr, if_true, if_false]
      exact bufDisjoint_alter c s _ e.db_name
  · by_cases hcr : pyStartsWith (pyLower (pyStrip (getSql e.records))) "create table" = true
    · simp only [handle_query_event, ha, hcr, if_true, if_false]
      exact bufDisjoint_create _ _ _ h
    · simp only [handle_query_event, ha, hcr, if_true, if_false]
      exact h

theorem bufDisjoint_dispatch (c : Converter) (s1 : ReplState) (e : LogEvent)
    (h : bufDisjoint s1) : bufDisjoint (handle_event_dispatch c s1 e).state := by
  unfold handle_event_dispatch
  by_cases hadd : e.event_type = ADD_EVENT
  · rw [if_pos hadd]
    exact bufDisjoint_insert_event c s1 e h
  · rw [if_neg hadd]
    by_cases hrem : e.event_type = REMOVE_EVENT
    · rw [if_pos hrem]
      exact bufDisjoint_erase_event s1 e h
    · rw [if_neg hrem]
      by_cases hq : e.event_type = QUERY_EVENT
      · rw [if_pos hq]
        exact bufDisjoint_query_event c s1 e h
      · rw [if_neg hq]
        exact h

theorem bufDisjoint_handle_event (c : Converter) (s : ReplState) (e : LogEvent)
    (h : bufDisjoint s) : bufDisjoint (handle_event c s e).state := by
  unfold handle_event
  by_cases hs : suppressedB s e = true
  · rw [if_pos hs]
    exact h
  · rw [if_neg hs]
    exact bufDisjoint_dispatch c _ e (bufDisjoint_same_buffers s _ rfl rfl h)

theorem bufDisjoint_step (c : Converter) (s : ReplState) (st : RStep)
    (h : bufDisjoint s) : bufDisjoint (stepState c s st) := by
  cases st with
  | ev e => exact bufDisjoint_handle_event c s e h
  | flush => exact bufDisjoint_upload s

theorem bufDisjoint_runSteps (c : Converter) (s : ReplState) (steps : List RStep)
    (h : bufDisjoint s) : bufDisjoint (runSteps c s steps) := by
  induction steps generalizing s with
  | nil => exact h
  | cons st rest ih => exact ih _ (bufDisjoint_step c s st h)

theorem bufDisjoint_initRepl (lpt lptnu : Option TxId)
    (reg : List (String × (TableStructure × TableStructure))) :
    bufDisjoint (initRepl lpt lptnu reg) := by
  intro t k hk
  simp [initRepl, alistGet] at hk

/-! ### The transaction-id order -/

theorem txLeB_refl (a : TxId) : txLeB a a = true := by simp [txLeB]

theorem txLeB_total (a b : TxId) (h : txLeB a b = false) : txLeB b a = true := by
  unfold txLeB at h ⊢
  by_cases hab : a.1 = b.1
  · rw [if_pos hab] at h
    rw [if_pos hab.symm]
    have hn : ¬ a.2 ≤ b.2 := of_decide_eq_false h
    exact decide_eq_true (by omega)
  · rw [if_neg hab] at h
    rw [if_neg (fun hba => hab hba.symm)]
    have hn : ¬ a.1 < b.1 := of_decide_eq_false h
    exact decide_eq_true (lt_of_le_of_ne (not_lt.1 hn) (Ne.symm hab))

theorem txLeB_trans (a b c : TxId) (h1 : txLeB a b = true) (h2 : txLeB b c = true) :
    txLeB a c = true := by
  unfold txLeB at h1 h2 ⊢
  by_cases hab : a.1 = b.1
  · by_cases hbc : b.1 = c.1
    · rw [if_pos hab] at h1
      rw [if_pos hbc] at h2
      rw [if_pos (hab.trans hbc)]
      have n1 : a.2 ≤ b.2 := of_decide_eq_true h1
      have n2 : b.2 ≤ c.2 := of_decide_eq_true h2
      exact decide_eq_true (by omega)
    · rw [if_pos hab] at h1
      rw [if_neg hbc] at h2
      have l2 : b.1 < c.1 := of_decide_eq_true h2
      have hac : a.1 ≠ c.1 := by rw [hab]; exact ne_of_lt l2
      rw [if_neg hac]
      exact decide_eq_true (by rw [hab]; exact l2)
  · by_cases hbc : b.1 = c.1
    · rw [if_neg hab] at h1
      have l1 : a.1 < b.1 := of_decide_eq_true h1
      have hac : a.1 ≠ c.1 := by rw [← hbc]; exact hab
      rw [if_neg hac]
      exact decide_eq_true (by rw [← hbc]; exact l1)
    · rw [if_neg hab] at h1
      rw [if_neg hbc] at h2
      have l1 : a.1 < b.1 := of_decide_eq_true h1
      have l2 : b.1 < c.1 := of_decide_eq_true h2
      have hlt : a.1 < c.1 := lt_trans l1 l2
      rw [if_neg (ne_of_lt hlt)]
      exact decide_eq_true hlt

theorem optTxLeB_refl (a : Option TxId) : optTxLeB a a = true := by
  cases a with
  | none => rfl
  | some x => exact txLeB_refl x

theorem optTxLeB_trans (a b c : Option TxId) (h1 : optTxLeB a b = true)
    (h2 : optTxLeB b c = true) : optTxLeB a c = true := by
  cases a with
  | none => rfl
  | some x =>
    cases b with
    | none => simp [optTxLeB] at h1
    | some y =>
      cases c with
      | none => simp [optTxLeB] at h2
      | some z => exact txLeB_trans x y z h1 h2

/-! ### Cursor behaviour of each handler -/

theorem lptnu_le_event (s : ReplState) (e : LogEvent) (h : suppressedB s e = false) :
    optTxLeB s.last_processed_transaction_non_uploaded (some e.transaction_id) = true := by
  unfold suppressedB at h
  cases hc : s.last_processed_transaction_non_uploaded with
  | none => rfl
  | some t =>
    rw [hc] at h
    exact txLeB_total _ _ h

theorem handle_alter_query_cursor (c : Converter) (s : ReplState) (q db : String) :
    (handle_alter_query c s q db).1.last_processed_transaction =
      s.last_processed_transaction_non_uploaded ∧
    (handle_alter_query c s q db).1.last_processed_transaction_non_uploaded =
      s.last_processed_transaction_non_uploaded := by
  unfold handle_alter_query
  rcases hq : c.convert_alter_query q db with _ | ch
  · simp only [hq]
    exact ⟨rfl, rfl⟩
  · simp only [hq]
    exact ⟨rfl, rfl⟩

theorem handle_query_event_cursor (c : Converter) (s : ReplState) (e : LogEvent) :
    (handle_query_event c s e).state.last_processed_transaction_non_uploaded =
      s.last_processed_transaction_non_uploaded ∧
    ((handle_query_event c s e).state.last_processed_transaction =
        s.last_processed_transaction ∨
     (handle_query_event c s e).state.last_processed_transaction =
        s.last_processed_transaction_non_uploaded) := by
  by_cases ha : pyStartsWith (pyLower (pyStrip (getSql e.records))) "alter" = true
  · by_cases hcr : pyStartsWith (pyLower (pyStrip (getSql e.records))) "create table" = true
    · simp only [handle_query_event, ha, hcr, if_true]
      exact ⟨(handle_alter_query_cursor c s _ e.db_name).2,
        .inr (handle_alter_query_cursor c s _ e.db_name).1⟩
    · simp only [handle_query_event, ha, hcr, if_true, if_false]
      exact ⟨(handle_alter_query_cursor c s _ e.db_name).2,
        .inr (handle_alter_query_cursor c s _ e.db_name).1⟩
  · by_cases hcr : pyStartsWith (pyLower (pyStrip (getSql e.records))) "create table" = true
    · simp only [handle_query_event, ha, hcr, if_true, if_false]
      exact ⟨rfl, .inl rfl⟩
    · simp only [handle_query_event, ha, hcr, if_true, if_false]
      exact ⟨rfl, .inl rfl⟩

theorem dispatch_cursor (c : Converter) (s1 : ReplState) (e : LogEvent) :
    (handle_event_dispatch c s1 e).state.last_processed_transaction_non_uploaded =
      s1.last_processed_transaction_non_uploaded ∧
    ((handle_event_dispatch c s1 e).state.last_processed_transaction =
        s1.last_processed_transaction ∨
     (handle_event_dispatch c s1 e).state.last_processed_transaction =
        s1.last_processed_transaction_non_uploaded) := by
  unfold handle_event_dispatch
  by_cases hadd : e.event_type = ADD_EVENT
  · rw [if_pos hadd]
    exact ⟨rfl, .inl rfl⟩
  · rw [if_neg hadd]
    by_cases hrem : e.event_type = REMOVE_EVENT
    · rw [if_pos hrem]
      exact ⟨rfl, .inl rfl⟩
    · rw [if_neg hrem]
      by_cases hq : e.event_type = QUERY_EVENT
      · rw [if_pos hq]
        exact handle_query_event_cursor c s1 e
      · rw [if_neg hq]
        exact ⟨rfl, .inl rfl⟩

theorem handle_event_cursor (c : Converter) (s : ReplState) (e : LogEvent)
    (h : suppressedB s e = false) :
    (handle_event c s e).state.last_processed_transaction_non_uploaded =
      some e.transaction_id ∧
    ((handle_event c s e).state.last_processed_transaction =
        s.last_processed_transaction ∨
     (handle_event c s e).state.last_processed_transaction = some e.transaction_id) := by
  unfold handle_event
  rw [if_neg (by simp [h])]
  exact dispatch_cursor c _ e

theorem cursorInv_step (c : Converter) (s : ReplState) (st : RStep)
    (h : cursorInv s = true) :
    cursorInv (stepState c s st) = true ∧
    optTxLeB s.last_processed_transaction
      (stepState c s st).last_processed_transaction = true ∧
    optTxLeB s.last_processed_transaction_non_uploaded
      (stepState c s st).last_processed_transaction_non_uploaded = true := by
  cases st with
  | flush => exact ⟨optTxLeB_refl _, h, optTxLeB_refl _⟩
  | ev e =>
    show cursorInv (handle_event c s e).state = true ∧
      optTxLeB s.last_processed_transaction
        (handle_event c s e).state.last_processed_transaction = true ∧
      optTxLeB s.last_processed_transaction_non_uploaded
        (handle_event c s e).state.last_processed_transaction_non_uploaded = true
    by_cases hs : suppressedB s e = true
    · have hst : (handle_event c s e).state = s := by simp [handle_event, hs]
      rw [hst]
      exact ⟨h, optTxLeB_refl _, optTxLeB_refl _⟩
    · have hs' : suppressedB s e = false := by simpa using hs
      have hcur := handle_event_cursor c s e hs'
      have hle := lptnu_le_event s e hs'
      refine ⟨?_, ?_, ?_⟩
      · unfold cursorInv
        rw [hcur.1]
        rcases hcur.2 with h2 | h2
        · rw [h2]
          exact optTxLeB_trans _ _ _ h hle
        · rw [h2]
          exact optTxLeB_refl _
      · rcases hcur.2 with h2 | h2
        · rw [h2]
          exact optTxLeB_refl _
        · rw [h2]
          exact optTxLeB_trans _ _ _ h hle
      · rw [hcur.1]
        exact hle

theorem cursorInv_runSteps (c : Converter) (s : ReplState) (steps : List RStep)
    (h : cursorInv s = true) : cursorInv (runSteps c s steps) = true := by
  induction steps generalizing s with
  | nil => exact h
  | cons st rest ih => exact ih _ (cursorInv_step c s st h).1

/-! ### Keyword prefixes are mutually exclusive -/

theorem chPre_head_ne (a c0 : Char) (as cs l : List Char) (hne : a ≠ c0)
    (h : chPre (a :: as) l = true) : chPre (c0 :: cs) l = false := by
  cases l with
  | nil => simp [chPre] at h
  | cons b bs =>
    simp only [chPre, Bool.and_eq_true, beq_iff_eq] at h
    have hcb : (c0 == b) = false :=
      beq_eq_false_iff_ne.2 (fun hcb => hne (h.1.trans hcb.symm))
    simp [chPre, hcb]

theorem alter_excl (lw : String) (h : pyStartsWith lw "alter" = true) :
    pyStartsWith lw "create table" = false ∧ pyStartsWith lw "drop table" = false := by
  unfold pyStartsWith at h ⊢
  have h5 : "alter".toList = 'a' :: "lter".toList := by decide
  have hct : "create table".toList = 'c' :: "reate table".toList := by decide
  have hdt : "drop table".toList = 'd' :: "rop table".toList := by decide
  rw [h5] at h
  rw [hct, hdt]
  exact ⟨chPre_head_ne _ _ _ _ _ (by decide) h, chPre_head_ne _ _ _ _ _ (by decide) h⟩

/-! ### Shape of the target calls emitted by a flush -/

theorem upload_ops_shape (s : ReplState) (op : TargetOp)
    (h : op ∈ (upload_records s).2) : isInsertOp op = true ∨ isEraseOp op = true := by
  rcases List.mem_append.1 h with hm | hm
  · rcases List.mem_filterMap.1 hm with ⟨p, _, hf⟩
    by_cases hnil : p.2 = []
    · rw [if_pos hnil] at hf
      simp at hf
    · rw [if_neg hnil] at hf
      simp only [Option.some.injEq] at hf
      rw [← hf]
      exact .inl rfl
  · rcases List.mem_filterMap.1 hm with ⟨p, _, hf⟩
    by_cases hnil : p.2 = []
    · rw [if_pos hnil] at hf
      simp at hf
    · rw [if_neg hnil] at hf
      simp only [Option.some.injEq] at hf
      rw [← hf]
      exact .inr rfl

theorem upload_no_exec (s : ReplState) (q : String) :
    TargetOp.execute_command q ∉ (upload_records s).2 := by
  intro hmem
  rcases upload_ops_shape s _ hmem with h | h <;> simp [isInsertOp, isEraseOp] at h

/-! ### The claims -/

/-- C1 (amended): along every realtime trace from a fresh replicator the
literal key sets of the two buffers stay disjoint — no value is at once a
key of `records_to_insert[t]` and a member of `records_to_delete[t]`;
`handle_insert_event` discards each buffered insert key from the delete
set, and `handle_erase_event` pops each key it buffers for deletion (for a
String-typed target primary key that is the quoted form, not the raw
primary key) from the insert map. -/
theorem c1_buffer_disjointness_amended :
    (∀ (c : Converter) (lpt lptnu : Option TxId)
        (reg : List (String × (TableStructure × TableStructure))) (steps : List RStep),
      bufDisjoint (runSteps c (initRepl lpt lptnu reg) steps)) ∧
    (∀ (c : Converter) (s : ReplState) (e : LogEvent) (k : Value),
      k ∈ insert_record_ids c s e →
      k ∉ alistGet (handle_insert_event c s e).records_to_delete e.table_name []) ∧
    (∀ (s : ReplState) (e : LogEvent) (k : Value),
      k ∈ erase_keys s e →
      k ∉ (alistGet (handle_erase_event s e).records_to_insert e.table_name []).map
        Prod.fst) := by
  refine ⟨fun c lpt lptnu reg steps =>
    bufDisjoint_runSteps c _ steps (bufDisjoint_initRepl _ _ _), ?_, ?_⟩
  · intro c s e k hk hkd
    unfold handle_insert_event at hkd
    rw [alistGet_set_self] at hkd
    unfold insert_record_ids at hk
    rcases List.mem_map.1 hk with ⟨r, hr, hkr⟩
    exact insertLoop_key_not_mem_del _ _ _ _ r hr (by rw [hkr]; exact hkd)
  · intro s e k hk hkm
    unfold handle_erase_event at hkm
    rw [alistGet_set_self] at hkm
    exact eraseLoop_key_not_mem_ins _ _ _ k hk hkm

/-- C1 witness: on a concrete erase of the String primary key `x`, the key
actually buffered for deletion — the quoted `'x'` — is absent from the
insert map afterwards. -/
theorem c1_witness :
    Value.vStr (squote ++ "x" ++ squote) ∉
      (alistGet (handle_erase_event c1exState c1exEvent).records_to_insert "u" []).map
        Prod.fst :=
  c1_buffer_disjointness_amended.2.2 c1exState c1exEvent _ (by decide)

/-- C1 counterexample: after `handle_erase_event` removes the record with
String primary key `x`, the raw key `x` is still a key of the insert
buffer — the handler popped only the quoted form `'x'` — so the claim that
the deleted primary key is removed from the insert map for string-typed
primary keys is false. -/
theorem c1_counterexample :
    Value.vStr "x" ∈
      (alistGet (handle_erase_event c1exState c1exEvent).records_to_insert "u" []).map
        Prod.fst ∧
    alistGet (handle_erase_event c1exState c1exEvent).records_to_delete "u" [] =
      [Value.vStr (squote ++ "x" ++ squote)] ∧
    erase_keys c1exState c1exEvent = [Value.vStr (squote ++ "x" ++ squote)] := by
  decide

/-- C2: on a table whose target primary-key type is String, REMOVE `x`
then ADD `(x, d)` within one flush window makes the next flush emit both
the insert of the row and a delete for the same primary key (in its quoted
form) — not only the last event's effect — because the ADD's
`discard` used the raw key while the delete buffer holds the quoted key.
The final cursor does equal the later transaction id. -/
theorem c2_string_pk_coalescing_bug :
    (upload_records
      (handle_event sampleConverter
        (handle_event sampleConverter (initRepl none none uReg) c2RemoveEvent).state
        c2AddEvent).state).2 =
      [TargetOp.insert "u" [[Value.vStr "x", Value.vStr "d"]],
       TargetOp.erase "u" "id" [Value.vStr (squote ++ "x" ++ squote)]] ∧
    (handle_event sampleConverter
        (handle_event sampleConverter (initRepl none none uReg) c2RemoveEvent).state
        c2AddEvent).state.last_processed_transaction_non_uploaded =
      some ("log1", 110) := by
  decide

/-- C3: after any flush, every table's insert and delete buffers are
empty, the durable cursor equals the non-uploaded cursor captured at the
start of the flush, and the emitted target calls are a block of bulk
inserts followed by a block of deletes-by-primary-key-set. -/
theorem c3_flush_postcondition (s : ReplState) :
    (∀ t, alistGet (upload_records s).1.records_to_insert t [] = []) ∧
    (∀ t, alistGet (upload_records s).1.records_to_delete t [] = []) ∧
    (upload_records s).1.last_processed_transaction =
      s.last_processed_transaction_non_uploaded ∧
    (∃ a b, (upload_records s).2 = a ++ b ∧
      (∀ op ∈ a, isInsertOp op = true) ∧ (∀ op ∈ b, isEraseOp op = true)) := by
  refine ⟨fun t => rfl, fun t => rfl, rfl, ?_⟩
  refine ⟨_, _, rfl, ?_, ?_⟩
  · intro op hop
    rcases List.mem_filterMap.1 hop with ⟨p, _, hf⟩
    by_cases hnil : p.2 = []
    · rw [if_pos hnil] at hf
      simp at hf
    · rw [if_neg hnil] at hf
      simp only [Option.some.injEq] at hf
      rw [← hf]
      rfl
  · intro op hop
    rcases List.mem_filterMap.1 hop with ⟨p, _, hf⟩
    by_cases hnil : p.2 = []
    · rw [if_pos hnil] at hf
      simp at hf
    · rw [if_neg hnil] at hf
      simp only [Option.some.injEq] at hf
      rw [← hf]
      rfl

/-- C3 witness at a concrete buffered state. -/
theorem c3_witness :
    (upload_records c3exState).1.last_processed_transaction = some ("log1", 9) :=
  (c3_flush_postcondition c3exState).2.2.1

/-- C4: when the non-uploaded cursor is set and an event's transaction id
is at or below it, `handle_event` returns with the state completely
unchanged (buffers, cursors, schema registry and statistics), no target
call and no error. -/
theorem c4_duplicate_suppression (c : Converter) (s : ReplState) (e : LogEvent)
    (t : TxId) (h1 : s.last_processed_transaction_non_uploaded = some t)
    (h2 : txLeB e.transaction_id t = true) :
    handle_event c s e = ⟨s, [], none⟩ := by
  have hs : suppressedB s e = true := by
    unfold suppressedB
    rw [h1]
    exact h2
  unfold handle_event
  rw [if_pos hs]

/-- C4 witness: a concrete stale event is dropped without any effect. -/
theorem c4_witness :
    handle_event sampleConverter c4exState c4exEvent = ⟨c4exState, [], none⟩ :=
  c4_duplicate_suppression sampleConverter c4exState c4exEvent ("log1", 100) rfl
    (by decide)

/-- C5 (amended): from any state in which the durable cursor is at or
below the non-uploaded one (as after `State.load`, which sets them equal,
or when both are unset), every realtime step — event handling or flush —
keeps that invariant, leaves both cursors non-decreasing, and whenever
both cursors are set afterwards the durable one is at or below the
non-uploaded one.  The unconditioned claim fails in the fresh-bootstrap
window, see the counterexample. -/
theorem c5_cursor_monotonicity_amended (c : Converter) (s0 : ReplState)
    (h : cursorInv s0 = true) (pre : List RStep) (st : RStep) :
    cursorInv (stepState c (runSteps c s0 pre) st) = true ∧
    optTxLeB (runSteps c s0 pre).last_processed_transaction
      (stepState c (runSteps c s0 pre) st).last_processed_transaction = true ∧
    optTxLeB (runSteps c s0 pre).last_processed_transaction_non_uploaded
      (stepState c (runSteps c s0 pre) st).last_processed_transaction_non_uploaded =
      true ∧
    (∀ a b,
      (stepState c (runSteps c s0 pre) st).last_processed_transaction = some a →
      (stepState c (runSteps c s0 pre) st).last_processed_transaction_non_uploaded =
        some b →
      txLeB a b = true) := by
  have hinv := cursorInv_runSteps c s0 pre h
  have hstep := cursorInv_step c _ st hinv
  refine ⟨hstep.1, hstep.2.1, hstep.2.2, ?_⟩
  intro a b ha hb
  have hres := hstep.1
  unfold cursorInv at hres
  rw [ha, hb] at hres
  exact hres

/-- C5 witness: one concrete event step from a loaded state. -/
theorem c5_witness :
    cursorInv (stepState sampleConverter
      (runSteps sampleConverter (initRepl (some ("log1", 5)) (some ("log1", 5)) uReg) [])
      (.ev c5wEvent)) = true :=
  (c5_cursor_monotonicity_amended sampleConverter
    (initRepl (some ("log1", 5)) (some ("log1", 5)) uReg) (by decide) []
    (.ev c5wEvent)).1

/-- C5 counterexample: in the reachable fresh-bootstrap state — durable
cursor set to the binlog head, non-uploaded cursor still unset — a single
flush step resets `last_processed_transaction` from its set value to
unset, a strict decrease, so the cursors are not unconditionally
non-decreasing across flush steps. -/
theorem c5_counterexample :
    c5exState.last_processed_transaction = some ("binlog1", 42) ∧
    (stepState sampleConverter c5exState .flush).last_processed_transaction = none ∧
    optTxLeB c5exState.last_processed_transaction
      (stepState sampleConverter c5exState .flush).last_processed_transaction =
      false := by
  decide

/-- C6: `State.save` writes exactly the seven persisted fields and is
independent of `last_processed_transaction_non_uploaded`; loading a saved
record restores every persisted field and sets the non-uploaded cursor to
the saved `last_processed_transaction`; loading a missing file leaves the
fresh-start defaults unchanged. -/
theorem c6_state_save_load_roundtrip :
    (∀ (s : StateRec) (x : Option TxId),
      State.save { s with last_processed_transaction_non_uploaded := x } =
        State.save s) ∧
    (∀ (prev s : StateRec),
      State.load prev (some (State.save s)) = .ok { prev with
        last_processed_transaction := s.last_processed_transaction
        last_processed_transaction_non_uploaded := s.last_processed_transaction
        status := s.status
        tables_last_record_version := s.tables_last_record_version
        initial_replication_table := s.initial_replication_table
        initial_replication_max_primary_key := s.initial_replication_max_primary_key
        tables_structure := s.tables_structure
        tables := s.tables }) ∧
    (∀ prev : StateRec, State.load prev none = .ok prev) := by
  refine ⟨fun s x => rfl, fun prev s => ?_, fun prev => rfl⟩
  rcases s with ⟨lpt, lptnu, st, tlrv, irt, irmpk, ts, tl⟩
  cases st <;> rfl

/-- C7: for a QUERY event whose stripped statement starts (after
lowercasing) with `alter`, the handler flushes first (its state has empty
buffers and its target calls start with the flush ops), then either skips
a null conversion — no DDL op, registry unchanged, no error — or appends
exactly the converted DDL execution and brings the registry in line (the
registry update is modelled from the spec, `Converter.apply_alter`). -/
theorem c7_alter_forces_flush (c : Converter) (s : ReplState) (e : LogEvent)
    (h : pyStartsWith (pyLower (pyStrip (getSql e.records))) "alter" = true) :
    (handle_query_event c s e).err = none ∧
    (handle_query_event c s e).state.records_to_insert = [] ∧
    (handle_query_event c s e).state.records_to_delete = [] ∧
    (c.convert_alter_query (pyStrip (getSql e.records)) e.db_name = none →
      (handle_query_event c s e).ops = (upload_records s).2 ∧
      (∀ q, TargetOp.execute_command q ∉ (handle_query_event c s e).ops) ∧
      (handle_query_event c s e).state.tables_structure = s.tables_structure) ∧
    (∀ chq, c.convert_alter_query (pyStrip (getSql e.records)) e.db_name = some chq →
      (handle_query_event c s e).ops =
        (upload_records s).2 ++ [TargetOp.execute_command chq] ∧
      (handle_query_event c s e).state.tables_structure =
        c.apply_alter (pyStrip (getSql e.records)) e.db_name s.tables_structure) := by
  have hex := alter_excl _ h
  simp only [handle_query_event, h, hex.1, hex.2, if_true, Bool.false_eq_true, if_false,
    List.append_nil]
  unfold handle_alter_query
  rcases hc : c.convert_alter_query (pyStrip (getSql e.records)) e.db_name with _ | ch
  · simp only [hc]
    refine ⟨by trivial, by trivial, by trivial,
      fun _ => ⟨by trivial, fun q => upload_no_exec s q, by trivial⟩, ?_⟩
    intro chq hchq
    exact absurd hchq (by simp)
  · simp only [hc]
    refine ⟨by trivial, by trivial, by trivial, fun h0 => absurd h0 (by simp), ?_⟩
    intro chq hchq
    have hcc : ch = chq := by simpa using hchq
    subst hcc
    exact ⟨by trivial, by trivial⟩

/-- C7 witness: a concrete ALTER query event under the sample converter
(whose conversion is null) completes without error. -/
theorem c7_witness :
    (handle_query_event sampleConverter (initRepl none none uReg) c7exEvent).err =
      none :=
  (c7_alter_forces_flush sampleConverter (initRepl none none uReg) c7exEvent
    (by decide)).1

/-- C8: on the first page of a non-integer-primary-key table the request
is not unbounded — the code passes the quoted text of Python `None` — so
the claim holds for integer keys and for set cursors, but its
first-page-null part fails for non-Int key types. -/
theorem c8_first_page_start_value :
    query_start_value none "String" = some (Value.vStr (squote ++ "None" ++ squote)) ∧
    query_start_value none "String" ≠ none ∧
    query_start_value none "Int64" = none ∧
    query_start_value (some (Value.vInt 7)) "UInt64" = some (Value.vInt 7) ∧
    query_start_value (some (Value.vStr "abc")) "String" =
      some (Value.vStr (squote ++ "abc" ++ squote)) := by
  decide

/-- C9: a QUERY event whose statement starts with `drop table` leaves the
registry, the buffers and the target untouched, but does not complete
cleanly: the call `handle_drop_table_query(query, event.db_name)` passes
two arguments to a one-parameter method and raises `TypeError`. -/
theorem c9_drop_table_raises :
    (handle_event sampleConverter (initRepl none none uReg) c9Event).err =
      some PyErr.typeError ∧
    (handle_event sampleConverter (initRepl none none uReg) c9Event).state.tables_structure =
      uReg ∧
    (handle_event sampleConverter (initRepl none none uReg) c9Event).state.records_to_insert =
      [] ∧
    (handle_event sampleConverter (initRepl none none uReg) c9Event).state.records_to_delete =
      [] ∧
    (handle_event sampleConverter (initRepl none none uReg) c9Event).ops = [] := by
  decide

/-- C10: an event whose type is none of ADD, REMOVE, QUERY (and which is
not suppressed) raises `KeyError` from the dispatch-dict lookup, after the
non-uploaded cursor has already been advanced to its transaction id;
replaying the same event against the resulting state is suppressed as a
pure no-op. -/
theorem c10_unknown_event_type (c : Converter) (s : ReplState) (e : LogEvent)
    (h1 : e.event_type ≠ ADD_EVENT) (h2 : e.event_type ≠ REMOVE_EVENT)
    (h3 : e.event_type ≠ QUERY_EVENT) (h4 : suppressedB s e = false) :
    (handle_event c s e).err = some PyErr.keyError ∧
    (handle_event c s e).state.last_processed_transaction_non_uploaded =
      some e.transaction_id ∧
    (handle_event c s e).ops = [] ∧
    handle_event c (handle_event c s e).state e =
      ⟨(handle_event c s e).state, [], none⟩ := by
  have hred : handle_event c s e = ⟨{ s with
      stats_events_count := s.stats_events_count + 1
      stats_last_transaction := some e.transaction_id
      last_processed_transaction_non_uploaded := some e.transaction_id },
    [], some .keyError⟩ := by
    unfold handle_event
    rw [if_neg (by simp [h4])]
    unfold handle_event_dispatch
    rw [if_neg h1, if_neg h2, if_neg h3]
  refine ⟨by rw [hred], by rw [hred], by rw [hred], ?_⟩
  rw [hred]
  have hsup : suppressedB { s with
      stats_events_count := s.stats_events_count + 1
      stats_last_transaction := some e.transaction_id
      last_processed_transaction_non_uploaded := some e.transaction_id } e = true :=
    txLeB_refl e.transaction_id
  unfold handle_event
  rw [if_pos hsup]

/-- C10 witness: a concrete event of type 99 raises `KeyError`. -/
theorem c10_witness :
    (handle_event sampleConverter (initRepl none none []) c10Event).err =
      some PyErr.keyError :=
  (c10_unknown_event_type sampleConverter (initRepl none none []) c10Event
    (by decide) (by decide) (by decide) (by decide)).1

end Repl



